import Mathlib

/-!
# Verification of the face-looker gaze quantization pipeline

Shallow embedding of `src/face-tracker.js`. JS numbers are modelled as exact
rationals (`ℚ`); JS `Math.round` is `round` on `ℚ` (both compute `⌊x + 1/2⌋`,
rounding halves toward positive infinity). Strings are Lean `String`s; the
single-occurrence `String.prototype.replace` calls are modelled by a
first-occurrence character replacement on the character list.

The tracker closure state (`useOrientation`, `baseOrientation`,
`hasCalibrated`, and the displayed `img.src`) becomes an explicit state
record; each DOM event handler becomes a state-transition function.
-/

namespace FaceTracker

/-- Grid configuration constant `P_MIN = -15` from face-tracker.js line 2. -/
def P_MIN : ℤ := -15

/-- Grid configuration constant `P_MAX = 15` from face-tracker.js line 3. -/
def P_MAX : ℤ := 15

/-- Grid configuration constant `STEP = 3` from face-tracker.js line 4. -/
def STEP : ℤ := 3

/-- Image size constant `SIZE = 256` from face-tracker.js line 5. -/
def SIZE : ℕ := 256

/-- The `clamp` helper: `Math.max(min, Math.min(max, value))` (lines 7-9).
Stated over any linear order so it serves both the rational sample values
and the integer grid values. -/
def clamp {α : Type*} [LinearOrder α] (value mn mx : α) : α :=
  max mn (min mx value)

/-- The `quantizeToGrid` function (lines 11-15):
`raw = P_MIN + (val + 1) * (P_MAX - P_MIN) / 2`,
`snapped = Math.round(raw / STEP) * STEP`, then `clamp(snapped, P_MIN, P_MAX)`.
The result is integer-valued in the source, so snapping and the final clamp
are carried out in `ℤ`. -/
def quantizeToGrid (val : ℚ) : ℤ :=
  let raw : ℚ := (P_MIN : ℚ) + (val + 1) * ((P_MAX : ℚ) - (P_MIN : ℚ)) / 2
  let snapped : ℤ := round (raw / (STEP : ℚ)) * STEP
  clamp snapped P_MIN P_MAX

/-- Replace the first occurrence of character `c` by `r`, the behaviour of
JS `String.prototype.replace` with a single-character pattern. -/
def replaceFirstChar (c r : Char) : List Char → List Char
  | [] => []
  | a :: as => if a = c then r :: as else a :: replaceFirstChar c r as

/-- The `sanitize` function (lines 17-20): `Number(val).toFixed(1)` on the
integer grid value (which renders as `"<int>.0"`), then
`.replace('-', 'm').replace('.', 'p')`. -/
def sanitize (n : ℤ) : String :=
  List.asString (replaceFirstChar '.' 'p'
    (replaceFirstChar '-' 'm' (toString n ++ ".0").data))

/-- The `gridToFilename` function (lines 22-24): the template literal
`gaze_px${sanitize(px)}_py${sanitize(py)}_${SIZE}.webp`. -/
def gridToFilename (px py : ℤ) : String :=
  "gaze_px" ++ sanitize px ++ "_py" ++ sanitize py ++ "_" ++ toString SIZE ++ ".webp"

/-- The per-sample quantization map, applying `quantizeToGrid` to each axis
independently, as `setFromClient` (lines 62-63) and `handleOrientation`
(lines 105-106) do. -/
def quantize (x y : ℚ) : ℤ × ℤ :=
  (quantizeToGrid x, quantizeToGrid y)

/-- The eleven grid values of the default configuration. -/
def gridSet : Finset ℤ := {-15, -12, -9, -6, -3, 0, 3, 6, 9, 12, 15}

/-! ## Arithmetic helper lemmas about `quantizeToGrid` -/

/-- The scaled raw value of the pipeline simplifies: `raw / STEP = 5 * v`. -/
lemma raw_div_step (v : ℚ) :
    ((P_MIN : ℚ) + (v + 1) * ((P_MAX : ℚ) - (P_MIN : ℚ)) / 2) / (STEP : ℚ)
      = 5 * v := by
  norm_num [P_MIN, P_MAX, STEP]
  ring

/-- The linear map of `quantizeToGrid` simplifies: `raw / STEP = 5 * val`,
so the whole function is `clamp (round (5 v) * 3) (-15) 15`. -/
lemma quantizeToGrid_eq (v : ℚ) :
    quantizeToGrid v = clamp (round (5 * v) * 3) (-15 : ℤ) 15 := by
  simp only [quantizeToGrid, raw_div_step]
  norm_num [P_MIN, P_MAX, STEP]

/-- Clamping any multiple of three to `[-15, 15]` lands in the grid set. -/
lemma clamp_mul_three_mem (k : ℤ) : clamp (k * 3) (-15 : ℤ) 15 ∈ gridSet := by
  rcases le_or_lt k (-5) with h | h
  · have h3 : k * 3 ≤ -15 := by omega
    have : clamp (k * 3) (-15 : ℤ) 15 = -15 := by
      unfold clamp
      rw [min_eq_right (by omega : k * 3 ≤ 15), max_eq_left (by omega : k * 3 ≤ -15)]
    rw [this]; decide
  · rcases le_or_lt 5 k with h' | h'
    · have : clamp (k * 3) (-15 : ℤ) 15 = 15 := by
        unfold clamp
        rw [min_eq_left (by omega : (15 : ℤ) ≤ k * 3),
          max_eq_right (by omega : (-15 : ℤ) ≤ 15)]
      rw [this]; decide
    · have hk1 : -4 ≤ k := by omega
      have hk2 : k ≤ 4 := by omega
      have : clamp (k * 3) (-15 : ℤ) 15 = k * 3 := by
        unfold clamp
        rw [min_eq_right (by omega : k * 3 ≤ 15), max_eq_right (by omega : (-15 : ℤ) ≤ k * 3)]
      rw [this]
      interval_cases k <;> decide

/-- C1: for every rational input pair, both components of `quantize` lie in
the eleven-value grid {-15, -12, …, 15}, and that set is exactly the set of
STEP-multiples between `P_MIN` and `P_MAX` inclusive. -/
theorem quantize_range_invariant :
    (∀ x y : ℚ, (quantize x y).1 ∈ gridSet ∧ (quantize x y).2 ∈ gridSet) ∧
      gridSet = (Finset.Icc P_MIN P_MAX).filter (fun n => STEP ∣ n) := by
  constructor
  · intro x y
    constructor
    · show quantizeToGrid x ∈ gridSet
      rw [quantizeToGrid_eq]
      exact clamp_mul_three_mem _
    · show quantizeToGrid y ∈ gridSet
      rw [quantizeToGrid_eq]
      exact clamp_mul_three_mem _
  · decide

/-! ## C2: the spec's four-step pipeline -/

/-- Refinement reference, following the spec's words: per axis, clamp the
input to `[-1, 1]`, map linearly via `raw = P_MIN + (v + 1) * (P_MAX - P_MIN) / 2`,
snap to the nearest multiple of `STEP`, and clamp the snapped value back to
`[P_MIN, P_MAX]`. -/
def specQuantizeAxis (v : ℚ) : ℤ :=
  let c : ℚ := clamp v (-1) 1
  let raw : ℚ := (P_MIN : ℚ) + (c + 1) * ((P_MAX : ℚ) - (P_MIN : ℚ)) / 2
  let snapped : ℤ := round (raw / (STEP : ℚ)) * STEP
  clamp snapped P_MIN P_MAX

/-- Evaluation helper: `quantizeToGrid` at a concrete input, given the value
of the rounded scaled sample. -/
lemma quantizeToGrid_val (v : ℚ) (k : ℤ) (h : round (5 * v) = k) :
    quantizeToGrid v = clamp (k * 3) (-15 : ℤ) 15 := by
  rw [quantizeToGrid_eq, h]

lemma round_le_neg_five {x : ℚ} (h : x < -5) : round x ≤ -5 := by
  rw [round_eq]
  have hf : ⌊x + 1 / 2⌋ < -4 := Int.floor_lt.mpr (by push_cast; linarith)
  omega

lemma five_le_round {x : ℚ} (h : 5 < x) : 5 ≤ round x := by
  rw [round_eq]
  exact Int.le_floor.mpr (by push_cast; linarith)

lemma clamp_eq_bot {k : ℤ} (h : k ≤ -15) : clamp k (-15 : ℤ) 15 = -15 := by
  unfold clamp
  rw [min_eq_right (by omega), max_eq_left (by omega)]

lemma clamp_eq_top {k : ℤ} (h : 15 ≤ k) : clamp k (-15 : ℤ) 15 = 15 := by
  unfold clamp
  rw [min_eq_left (by omega), max_eq_right (by omega)]

/-- The source's `quantizeToGrid` is insensitive to pre-clamping its input:
the defensive output clamp already absorbs out-of-domain samples. -/
lemma quantizeToGrid_clamp (v : ℚ) :
    quantizeToGrid v = quantizeToGrid (clamp v (-1) 1) := by
  rcases lt_or_le v (-1) with h | h
  · have hc : clamp v (-1) 1 = -1 := by
      unfold clamp
      rw [min_eq_right (by linarith), max_eq_left (by linarith)]
    rw [hc]
    have h5 : round (5 * v) ≤ -5 := round_le_neg_five (by linarith)
    rw [quantizeToGrid_eq, clamp_eq_bot (by omega : round (5 * v) * 3 ≤ -15),
      quantizeToGrid_val (-1 : ℚ) (-5) (by norm_num [round_eq])]
    decide
  · rcases le_or_lt v 1 with h2 | h2
    · have hc : clamp v (-1) 1 = v := by
        unfold clamp
        rw [min_eq_right h2, max_eq_right h]
      rw [hc]
    · have hc : clamp v (-1) 1 = 1 := by
        unfold clamp
        rw [min_eq_left (by linarith), max_eq_right (by norm_num)]
      rw [hc]
      have h5 : 5 ≤ round (5 * v) := five_le_round (by linarith)
      rw [quantizeToGrid_eq, clamp_eq_top (by omega : (15 : ℤ) ≤ round (5 * v) * 3),
        quantizeToGrid_val (1 : ℚ) 5 (by norm_num [round_eq])]
      decide

/-- C2: each axis of `quantize` equals the spec's four-step pipeline
(clamp, linear map, snap, clamp back), and the spec's concrete instances
hold: `quantize(-1,-1) = (-15,-15)`, `quantize(1,1) = (15,15)`,
`quantize(2,-5) = quantize(1,-1) = (15,-15)`, `quantize(0,0) = (0,0)`. -/
theorem quantize_pipeline_correct :
    (∀ v : ℚ, quantizeToGrid v = specQuantizeAxis v) ∧
      quantize (-1) (-1) = (-15, -15) ∧
      quantize 1 1 = (15, 15) ∧
      quantize 2 (-5) = quantize 1 (-1) ∧
      quantize 1 (-1) = (15, -15) ∧
      quantize 0 0 = (0, 0) := by
  refine ⟨fun v => (quantizeToGrid_clamp v).trans rfl, ?_, ?_, ?_, ?_, ?_⟩ <;>
    simp only [quantize, quantizeToGrid_eq] <;> norm_num [round_eq] <;> decide

/-! ## C3: the tie-break rule of the snapping step -/

/-- Reference rule from the spec's first alternative: round half away from
zero. -/
def roundHalfAwayFromZero (x : ℚ) : ℤ :=
  if 0 ≤ x then ⌊x + 1 / 2⌋ else -⌊-x + 1 / 2⌋

/-- Reference rule from the spec's second alternative: round half to even. -/
def roundHalfToEven (x : ℚ) : ℤ :=
  if x - ⌊x⌋ = 1 / 2 then (if 2 ∣ ⌊x⌋ then ⌊x⌋ else ⌊x⌋ + 1) else round x

/-- The pipeline of `quantizeToGrid` with the snapping step carried out by an
arbitrary rounding rule, for comparing the source's `Math.round` against the
spec's candidate tie-break rules. -/
def quantizeWithRound (rnd : ℚ → ℤ) (val : ℚ) : ℤ :=
  let raw : ℚ := (P_MIN : ℚ) + (val + 1) * ((P_MAX : ℚ) - (P_MIN : ℚ)) / 2
  clamp (rnd (raw / (STEP : ℚ)) * STEP) P_MIN P_MAX

/-- An input is a half-step input when its raw value divided by `STEP` is
exactly halfway between two integers. -/
def isHalfStepInput (v : ℚ) : Prop :=
  ∃ k : ℤ,
    ((P_MIN : ℚ) + (v + 1) * ((P_MAX : ℚ) - (P_MIN : ℚ)) / 2) / (STEP : ℚ)
      = (k : ℚ) + 1 / 2

lemma quantizeWithRound_eq (rnd : ℚ → ℤ) (v : ℚ) :
    quantizeWithRound rnd v = clamp (rnd (5 * v) * 3) (-15 : ℤ) 15 := by
  simp only [quantizeWithRound, raw_div_step]
  norm_num [P_MIN, P_MAX, STEP]

/-- C3 counterexample: the snapping step follows neither candidate tie-break
rule uniformly. At `v = -1/10` (raw/STEP = -1/2) the code returns 0 while
round-half-away-from-zero gives -3, and at `v = 1/10` (raw/STEP = 1/2) the
code returns 3 while round-half-to-even gives 0. -/
theorem quantize_tiebreak_cex :
    ¬ ((∀ v : ℚ, isHalfStepInput v →
          quantizeToGrid v = quantizeWithRound roundHalfAwayFromZero v) ∨
        (∀ v : ℚ, isHalfStepInput v →
          quantizeToGrid v = quantizeWithRound roundHalfToEven v)) := by
  rintro (h | h)
  · have hhalf : isHalfStepInput (-1 / 10) := by
      unfold isHalfStepInput
      exact ⟨-1, by norm_num [P_MIN, P_MAX, STEP]⟩
    have h1 := h (-1 / 10) hhalf
    have e1 : quantizeToGrid (-1 / 10 : ℚ) = 0 := by
      rw [quantizeToGrid_val (-1 / 10) 0 (by norm_num [round_eq])]
      decide
    have e2 : quantizeWithRound roundHalfAwayFromZero (-1 / 10 : ℚ) = -3 := by
      rw [quantizeWithRound_eq,
        show roundHalfAwayFromZero (5 * (-1 / 10 : ℚ)) = -1 by
          norm_num [roundHalfAwayFromZero]]
      decide
    rw [e1, e2] at h1
    exact absurd h1 (by decide)
  · have hhalf : isHalfStepInput (1 / 10) := by
      unfold isHalfStepInput
      exact ⟨0, by norm_num [P_MIN, P_MAX, STEP]⟩
    have h1 := h (1 / 10) hhalf
    have e1 : quantizeToGrid (1 / 10 : ℚ) = 3 := by
      rw [quantizeToGrid_val (1 / 10) 1 (by norm_num [round_eq])]
      decide
    have e2 : quantizeWithRound roundHalfToEven (1 / 10 : ℚ) = 0 := by
      rw [quantizeWithRound_eq,
        show roundHalfToEven (5 * (1 / 10 : ℚ)) = 0 by
          norm_num [roundHalfToEven]]
      decide
    rw [e1, e2] at h1
    exact absurd h1 (by decide)

/-- C3 amended: the snapping step resolves every exact half-step input by
rounding toward positive infinity (the behaviour of JS `Math.round`),
uniformly for positive and negative half values: when `raw / STEP = k + 1/2`
the snapped value is `(k + 1) * STEP`, then clamped. -/
theorem quantize_tiebreak_half_up (v : ℚ) (k : ℤ)
    (h : ((P_MIN : ℚ) + (v + 1) * ((P_MAX : ℚ) - (P_MIN : ℚ)) / 2) / (STEP : ℚ)
      = (k : ℚ) + 1 / 2) :
    quantizeToGrid v = clamp ((k + 1) * STEP) P_MIN P_MAX := by
  have h5 : (5 : ℚ) * v = (k : ℚ) + 1 / 2 := (raw_div_step v).symm.trans h
  rw [quantizeToGrid_eq, h5, round_eq,
    show ((k : ℚ) + 1 / 2 + 1 / 2) = ((k + 1 : ℤ) : ℚ) by push_cast; ring,
    Int.floor_intCast]
  norm_num [P_MIN, P_MAX, STEP]

/-- Witness for the amended C3 at the concrete half-step input `v = 1/10`. -/
theorem quantize_tiebreak_half_up_witness :
    quantizeToGrid (1 / 10) = clamp ((0 + 1) * STEP) P_MIN P_MAX :=
  quantize_tiebreak_half_up (1 / 10) 0 (by norm_num [P_MIN, P_MAX, STEP])

/-! ## C4 and C5: the asset identifier encoding -/

/-- Refinement reference for the formatting contract, following the spec's
words: the coordinate is rendered with exactly one fractional digit, then the
minus sign is replaced by the letter `m` and the decimal point by the letter
`p`; hence the digits of `|n|` are preceded by `m` exactly when `n` is
negative and are followed by `p0`. -/
def specEncodeCoord (n : ℤ) : String :=
  (if n < 0 then "m" ++ toString n.natAbs else toString n.natAbs) ++ "p0"

/-- On every grid value the source's `sanitize` realizes the spec's
formatting contract. -/
lemma sanitize_eq_spec : ∀ n ∈ gridSet, sanitize n = specEncodeCoord n := by
  decide

lemma append_size_tail (X : String) :
    X ++ "_" ++ toString SIZE ++ ".webp" = X ++ "_256.webp" := by
  rw [String.append_assoc, String.append_assoc]
  rfl

/-- C4: on grid-valid coordinates, `gridToFilename` produces exactly
`gaze_px<encoded px>_py<encoded py>_256.webp` with each coordinate rendered
per the spec's one-fractional-digit, `m`-for-minus, `p`-for-point contract;
in particular the spec's two concrete instances hold. -/
theorem gridToFilename_format :
    (∀ px ∈ gridSet, ∀ py ∈ gridSet,
      gridToFilename px py =
        "gaze_px" ++ specEncodeCoord px ++ "_py" ++ specEncodeCoord py ++ "_256.webp") ∧
      gridToFilename 0 0 = "gaze_px0p0_py0p0_256.webp" ∧
      gridToFilename (-3) 15 = "gaze_pxm3p0_py15p0_256.webp" := by
  refine ⟨fun px hx py hy => ?_, by decide, by decide⟩
  show "gaze_px" ++ sanitize px ++ "_py" ++ sanitize py ++ "_" ++ toString SIZE ++ ".webp"
    = _
  rw [sanitize_eq_spec px hx, sanitize_eq_spec py hy, append_size_tail]

/-- Witness for C4 at the concrete grid pair (-3, 15). -/
theorem gridToFilename_format_witness :
    gridToFilename (-3) 15 =
      "gaze_px" ++ specEncodeCoord (-3) ++ "_py" ++ specEncodeCoord 15 ++ "_256.webp" :=
  gridToFilename_format.1 (-3) (by decide) 15 (by decide)

set_option maxRecDepth 10000 in
/-- All 121 grid pairs receive pairwise-distinct filenames: the image of the
encoding on the full grid square keeps its cardinality. -/
lemma gridToFilename_card :
    ((gridSet ×ˢ gridSet).image (fun p : ℤ × ℤ => gridToFilename p.1 p.2)).card
      = (gridSet ×ˢ gridSet).card := by decide

/-- C5: the encoding is injective on grid coordinates: distinct grid-valid
pairs yield distinct asset identifiers, so each identifier determines its
grid coordinate uniquely (the encoding is a bijection onto its image). -/
theorem gridToFilename_injective :
    ∀ px1 ∈ gridSet, ∀ py1 ∈ gridSet, ∀ px2 ∈ gridSet, ∀ py2 ∈ gridSet,
      gridToFilename px1 py1 = gridToFilename px2 py2 → px1 = px2 ∧ py1 = py2 := by
  intro px1 h1 py1 h2 px2 h3 py2 h4 heq
  have hm1 : (px1, py1) ∈ gridSet ×ˢ gridSet := Finset.mem_product.mpr ⟨h1, h2⟩
  have hm2 : (px2, py2) ∈ gridSet ×ˢ gridSet := Finset.mem_product.mpr ⟨h3, h4⟩
  have hp : (px1, py1) = (px2, py2) :=
    Finset.card_image_iff.mp gridToFilename_card (Finset.mem_coe.mpr hm1)
      (Finset.mem_coe.mpr hm2) heq
  exact ⟨congrArg Prod.fst hp, congrArg Prod.snd hp⟩

/-- Witness for C5 at the concrete grid pair (-15, 0) against itself. -/
theorem gridToFilename_injective_witness :
    (-15 : ℤ) = -15 ∧ (0 : ℤ) = 0 :=
  gridToFilename_injective (-15) (by decide) 0 (by decide) (-15) (by decide) 0
    (by decide) rfl

/-! ## C6: stability on grid points -/

/-- The normalized sample whose linear image is the grid value `g`, namely
`v = g / 15`, quantizes back to exactly `g`. -/
lemma quantizeToGrid_gridPoint : ∀ g ∈ gridSet, quantizeToGrid ((g : ℚ) / 15) = g := by
  intro g hg
  fin_cases hg <;> (rw [quantizeToGrid_eq]; norm_num [round_eq]) <;> decide

/-- C6: re-quantization is stable on grid points: for grid values `gx, gy`,
quantizing the normalized sample `(gx/15, gy/15)` returns exactly `(gx, gy)`,
and re-encoding the re-quantized point yields the identical identifier. -/
theorem requantize_stable :
    ∀ gx ∈ gridSet, ∀ gy ∈ gridSet,
      quantize ((gx : ℚ) / 15) ((gy : ℚ) / 15) = (gx, gy) ∧
        gridToFilename (quantizeToGrid ((gx : ℚ) / 15)) (quantizeToGrid ((gy : ℚ) / 15))
          = gridToFilename gx gy := by
  intro gx hgx gy hgy
  rw [show quantize ((gx : ℚ) / 15) ((gy : ℚ) / 15)
      = (quantizeToGrid ((gx : ℚ) / 15), quantizeToGrid ((gy : ℚ) / 15)) from rfl,
    quantizeToGrid_gridPoint gx hgx, quantizeToGrid_gridPoint gy hgy]
  exact ⟨rfl, rfl⟩

/-- Witness for C6 at the center grid point (0, 0). -/
theorem requantize_stable_witness :
    quantize ((0 : ℤ) / 15 : ℚ) ((0 : ℤ) / 15 : ℚ) = (0, 0) ∧
      gridToFilename (quantizeToGrid (((0 : ℤ) : ℚ) / 15)) (quantizeToGrid (((0 : ℤ) : ℚ) / 15))
        = gridToFilename 0 0 :=
  requantize_stable 0 (by decide) 0 (by decide)

/-! ## The tracker state machine (closure state of `initializeFaceTracker`) -/

/-- A container bounding rectangle, as consumed by `setFromClient`
(`getBoundingClientRect`). -/
structure Rect where
  left : ℚ
  top : ℚ
  width : ℚ
  height : ℚ

/-- The `baseOrientation` record `{ beta, gamma }` (line 48). -/
structure BaseOrientation where
  beta : ℚ
  gamma : ℚ

/-- The mutable closure state of one tracker instance: `useOrientation`
(line 47), `baseOrientation` (line 48), `hasCalibrated` (line 49) and the
displayed image source `img.src`. -/
structure TrackerState where
  useOrientation : Bool
  baseOrientation : BaseOrientation
  hasCalibrated : Bool
  imgSrc : String

/-- The `setFromClient` function (lines 51-69): normalize the client
position against the container rectangle's center (with inverted Y), clamp
each axis to `[-1, 1]`, quantize, and display the resulting asset. -/
def setFromClient (basePath : String) (s : TrackerState) (rect : Rect)
    (clientX clientY : ℚ) : TrackerState :=
  let centerX := rect.left + rect.width / 2
  let centerY := rect.top + rect.height / 2
  let nx := (clientX - centerX) / (rect.width / 2)
  let ny := (centerY - clientY) / (rect.height / 2)
  let clampedX := clamp nx (-1) 1
  let clampedY := clamp ny (-1) 1
  let px := quantizeToGrid clampedX
  let py := quantizeToGrid clampedY
  let filename := gridToFilename px py
  { s with imgSrc := basePath ++ filename }

/-- The `handleMouseMove` handler (lines 71-73). -/
def handleMouseMove (basePath : String) (s : TrackerState) (rect : Rect)
    (clientX clientY : ℚ) : TrackerState :=
  setFromClient basePath s rect clientX clientY

/-- The `handleTouch` handler (lines 75-82): with a nonempty touch list, set
the position from the first touch and disable orientation mode; otherwise do
nothing. -/
def handleTouch (basePath : String) (s : TrackerState) (rect : Rect)
    (touches : List (ℚ × ℚ)) : TrackerState :=
  match touches with
  | [] => s
  | t :: _ => { setFromClient basePath s rect t.1 t.2 with useOrientation := false }

/-- The `handleOrientation` handler (lines 84-114): bail out unless
orientation mode is on; calibrate on the first reading; compute the tilt
relative to the calibrated baseline, invert and normalize each axis with the
divisor 30, clamp, quantize and display. Absent `beta`/`gamma` readings
(`e.beta || 0`) are an `Option` defaulted to 0. -/
def handleOrientation (basePath : String) (s : TrackerState)
    (ebeta egamma : Option ℚ) : TrackerState :=
  if !s.useOrientation then s
  else
    let s1 := if !s.hasCalibrated then
        { s with baseOrientation := ⟨ebeta.getD 0, egamma.getD 0⟩, hasCalibrated := true }
      else s
    let beta := ebeta.getD 0 - s1.baseOrientation.beta
    let gamma := egamma.getD 0 - s1.baseOrientation.gamma
    let nx := clamp (-gamma / 30) (-1) 1
    let ny := clamp (-beta / 30) (-1) 1
    let px := quantizeToGrid nx
    let py := quantizeToGrid ny
    let filename := gridToFilename px py
    { s1 with imgSrc := basePath ++ filename }

/-- The `enableOrientation` API function (lines 128-131). -/
def enableOrientation (s : TrackerState) : TrackerState :=
  { s with useOrientation := true, hasCalibrated := false }

/-- The `disableOrientation` API function (lines 132-134). -/
def disableOrientation (s : TrackerState) : TrackerState :=
  { s with useOrientation := false }

/-! ## C7: mode exclusivity -/

/-- A tracker state with tilt mode active, for the concrete counterexample. -/
def tiltOnState : TrackerState :=
  { useOrientation := true, baseOrientation := ⟨0, 0⟩, hasCalibrated := false,
    imgSrc := "" }

/-- A container rectangle for concrete event instances. -/
def centerRect : Rect :=
  { left := 0, top := 0, width := 100, height := 100 }

/-- C7 counterexample: a mouse-move (pointer) sample received while tilt
mode is active does NOT disable tilt mode — the mode flag still reads true
immediately after the event, refuting the claim for pointer input. -/
theorem mousemove_keeps_tilt_cex :
    tiltOnState.useOrientation = true ∧
      (handleMouseMove "/faces/" tiltOnState centerRect 0 0).useOrientation = true :=
  ⟨rfl, rfl⟩

/-- C7 amended: a touch event carrying at least one touch point always
leaves tilt mode disabled, while a mouse-move event never changes the mode
flag. -/
theorem touch_cancels_tilt :
    ∀ (basePath : String) (s : TrackerState) (rect : Rect) (t : ℚ × ℚ)
      (rest : List (ℚ × ℚ)),
      (handleTouch basePath s rect (t :: rest)).useOrientation = false ∧
        ∀ clientX clientY : ℚ,
          (handleMouseMove basePath s rect clientX clientY).useOrientation
            = s.useOrientation :=
  fun _ _ _ _ _ => ⟨rfl, fun _ _ => rfl⟩

/-! ## C8 and C9: the orientation path -/

/-- `handleOrientation` never changes the mode flag. -/
lemma handleOrientation_useOrientation (basePath : String) (s : TrackerState)
    (ebeta egamma : Option ℚ) :
    (handleOrientation basePath s ebeta egamma).useOrientation
      = s.useOrientation := by
  unfold handleOrientation
  cases hu : s.useOrientation <;> cases hc : s.hasCalibrated <;> simp [hu, hc]

/-- Once calibrated, `handleOrientation` changes neither the baseline nor
the calibrated flag. -/
lemma handleOrientation_calibrated_stable (basePath : String) (s : TrackerState)
    (ebeta egamma : Option ℚ) (h : s.hasCalibrated = true) :
    (handleOrientation basePath s ebeta egamma).baseOrientation
        = s.baseOrientation ∧
      (handleOrientation basePath s ebeta egamma).hasCalibrated = true := by
  unfold handleOrientation
  cases hu : s.useOrientation <;> simp [hu, h]

/-- The first reading received while enabled and uncalibrated becomes the
baseline and sets the calibrated flag. -/
lemma handleOrientation_first (basePath : String) (s : TrackerState)
    (ebeta egamma : Option ℚ) (hu : s.useOrientation = true)
    (hc : s.hasCalibrated = false) :
    (handleOrientation basePath s ebeta egamma).baseOrientation
        = ⟨ebeta.getD 0, egamma.getD 0⟩ ∧
      (handleOrientation basePath s ebeta egamma).hasCalibrated = true := by
  unfold handleOrientation
  simp [hu, hc]

/-- A whole sequence of later readings leaves the baseline of a calibrated
state untouched. -/
lemma foldl_handleOrientation_base (basePath : String) :
    ∀ (readings : List (Option ℚ × Option ℚ)) (s : TrackerState),
      s.hasCalibrated = true →
      (readings.foldl (fun st rg => handleOrientation basePath st rg.1 rg.2)
          s).baseOrientation = s.baseOrientation := by
  intro readings
  induction readings with
  | nil => intro s _; rfl
  | cons r rs ih =>
    intro s h
    have hs := handleOrientation_calibrated_stable basePath s r.1 r.2 h
    simp only [List.foldl_cons]
    rw [ih _ hs.2, hs.1]

lemma clamp_zero_rat : clamp (0 : ℚ) (-1) 1 = 0 := by
  norm_num [clamp, min_def, max_def]

lemma quantizeToGrid_zero : quantizeToGrid 0 = 0 := by
  rw [quantizeToGrid_val 0 0 (by norm_num [round_eq])]
  decide

/-- A reading identical to the stored baseline normalizes both axes to 0 and
displays the center asset. -/
lemma handleOrientation_at_baseline (basePath : String) (s : TrackerState)
    (ebeta egamma : Option ℚ) (hu : s.useOrientation = true)
    (hc : s.hasCalibrated = true)
    (hb : s.baseOrientation = ⟨ebeta.getD 0, egamma.getD 0⟩) :
    (handleOrientation basePath s ebeta egamma).imgSrc
      = basePath ++ gridToFilename 0 0 := by
  unfold handleOrientation
  simp [hu, hc, hb, sub_self, neg_zero, zero_div, clamp_zero_rat,
    quantizeToGrid_zero]

/-- C8: enabling orientation mode marks the instance uncalibrated; the first
reading while uncalibrated becomes the baseline, exactly once — no sequence
of later readings changes it — and a subsequent reading identical to the
baseline displays the center asset `gridToFilename 0 0`, regardless of the
absolute raw values. -/
theorem tilt_calibration_lifecycle (basePath : String) (s : TrackerState)
    (ebeta egamma : Option ℚ) (readings : List (Option ℚ × Option ℚ)) :
    (enableOrientation s).hasCalibrated = false ∧
      (handleOrientation basePath (enableOrientation s) ebeta egamma).hasCalibrated
        = true ∧
      (handleOrientation basePath (enableOrientation s) ebeta egamma).baseOrientation
        = ⟨ebeta.getD 0, egamma.getD 0⟩ ∧
      (readings.foldl (fun st rg => handleOrientation basePath st rg.1 rg.2)
          (handleOrientation basePath (enableOrientation s) ebeta egamma)).baseOrientation
        = ⟨ebeta.getD 0, egamma.getD 0⟩ ∧
      (handleOrientation basePath
          (handleOrientation basePath (enableOrientation s) ebeta egamma)
          ebeta egamma).imgSrc = basePath ++ gridToFilename 0 0 := by
  have hf := handleOrientation_first basePath (enableOrientation s) ebeta egamma rfl rfl
  refine ⟨rfl, hf.2, hf.1, ?_, ?_⟩
  · rw [foldl_handleOrientation_base basePath readings _ hf.2, hf.1]
  · exact handleOrientation_at_baseline basePath _ ebeta egamma
      ((handleOrientation_useOrientation basePath (enableOrientation s) ebeta
        egamma).trans rfl) hf.2 hf.1

/-- C9: on a tilt-enabled, already-calibrated instance, a reading `(beta,
gamma)` (absent components treated as 0) changes only the displayed image,
to the asset obtained by quantizing then encoding
`nx = clamp(-(gamma - baseline.gamma)/30, -1, 1)` and
`ny = clamp(-(beta - baseline.beta)/30, -1, 1)`. -/
theorem orientation_normalization (basePath : String) (s : TrackerState)
    (ebeta egamma : Option ℚ) (hu : s.useOrientation = true)
    (hc : s.hasCalibrated = true) :
    handleOrientation basePath s ebeta egamma =
      { s with
        imgSrc := basePath ++ gridToFilename
          (quantizeToGrid (clamp (-(egamma.getD 0 - s.baseOrientation.gamma) / 30) (-1) 1))
          (quantizeToGrid (clamp (-(ebeta.getD 0 - s.baseOrientation.beta) / 30) (-1) 1)) } := by
  unfold handleOrientation
  simp [hu, hc]

/-- A concrete calibrated, tilt-enabled state for the witnesses. -/
def calibState : TrackerState :=
  { useOrientation := true, baseOrientation := ⟨10, 20⟩, hasCalibrated := true,
    imgSrc := "" }

/-- Witness for C9 at the concrete calibrated state and reading (10, 20). -/
theorem orientation_normalization_witness :
    handleOrientation "/faces/" calibState (some 10) (some 20) =
      { calibState with
        imgSrc := "/faces/" ++ gridToFilename
          (quantizeToGrid (clamp (-((some (20 : ℚ)).getD 0 - calibState.baseOrientation.gamma) / 30) (-1) 1))
          (quantizeToGrid (clamp (-((some (10 : ℚ)).getD 0 - calibState.baseOrientation.beta) / 30) (-1) 1)) } :=
  orientation_normalization "/faces/" calibState (some 10) (some 20) rfl rfl

/-! ## C10: orientation events are ignored while the mode is off -/

/-- A concrete state with orientation mode off, for the C10 witness. -/
def tiltOffState : TrackerState :=
  { useOrientation := false, baseOrientation := ⟨1, 2⟩, hasCalibrated := true,
    imgSrc := "x" }

/-- C10: with orientation mode disabled, a device-orientation event changes
nothing at all — the whole state (baseline, flags, displayed image) is
returned unchanged. -/
theorem orientation_disabled_noop (basePath : String) (s : TrackerState)
    (ebeta egamma : Option ℚ) (h : s.useOrientation = false) :
    handleOrientation basePath s ebeta egamma = s := by
  unfold handleOrientation
  simp [h]

/-- Witness for C10 at a concrete disabled state. -/
theorem orientation_disabled_noop_witness :
    handleOrientation "/faces/" tiltOffState (some 3) none = tiltOffState :=
  orientation_disabled_noop "/faces/" tiltOffState (some 3) none rfl

end FaceTracker
